import Mathlib

/-!
Verification of the export planner and tracker of the Blender 2.7 tools
repository (src/exporter/export.py) against its specification.

The Python functions are shallowly embedded as executable Lean functions.
Strings are processed as lists of characters; the handful of fixed regular
expressions used by the source are embedded as direct left-to-right scans
that mirror the behaviour of the Python `re` module on those patterns
(leftmost, non-overlapping matches; on a failed match the scan advances by
one character).  Scanners that skip more than one character per step take an
explicit fuel argument so that they stay structurally recursive; every
wrapper passes the length of the scanned list, which is always sufficient
because each step consumes at least one character.
-/

namespace ExporterSpec

/-- Python whitespace characters for ASCII input, as matched by `str.strip`
and by the regex class `\s`. -/
def isPySpace (c : Char) : Bool :=
  c = ' ' || c = '\t' || c = '\n' || c = '\r' || c = '\x0b' || c = '\x0c'

/-- Characters matched by the regex class of a space or a hyphen, the
separator required before every directive token in `parse_modifiers`. -/
def isSep (c : Char) : Bool :=
  isPySpace c || c = '-'

/-- ASCII lowercasing, used to model case-insensitive regex matching. -/
def lowerChar (c : Char) : Char :=
  if 'A' ≤ c ∧ c ≤ 'Z' then Char.ofNat (c.toNat + 32) else c

/-- ASCII lowercasing of a whole string, as in Python `str.lower`. -/
def lowerStr (s : String) : String :=
  String.mk (s.toList.map lowerChar)

/-- Case-insensitive test that the second list starts with the first. -/
def ciStarts : List Char → List Char → Bool
  | [], _ => true
  | _ :: _, [] => false
  | t :: ts, c :: cs => (lowerChar t == lowerChar c) && ciStarts ts cs

/-- Python `str.strip`: remove leading and trailing whitespace. -/
def pyStrip (s : List Char) : List Char :=
  ((s.dropWhile isPySpace).reverse.dropWhile isPySpace).reverse

/-- Fuel-indexed scan for `re.sub` with the whitespace-run pattern replaced
by a single space: each maximal run of whitespace becomes one space. -/
def collapseWsF : Nat → List Char → List Char
  | _, [] => []
  | 0, l => l
  | fuel + 1, c :: rest =>
    if isPySpace c then ' ' :: collapseWsF fuel (rest.dropWhile isPySpace)
    else c :: collapseWsF fuel rest

/-- Replace every maximal whitespace run by a single space. -/
def collapseWs (s : List Char) : List Char :=
  collapseWsF s.length s

/-- Fuel-indexed scan counting the non-overlapping occurrences of a
separator followed by the given token, case-insensitively: the embedding of
`re.findall` on the boolean directive patterns of `parse_modifiers`. -/
def countTokF (tok : List Char) : Nat → List Char → Nat
  | _, [] => 0
  | 0, _ => 0
  | fuel + 1, c :: rest =>
    if isSep c && ciStarts tok rest then countTokF tok fuel (rest.drop tok.length) + 1
    else countTokF tok fuel rest

/-- Count the non-overlapping occurrences of a separator followed by the
token, scanning left to right. -/
def countTok (tok : List Char) (s : List Char) : Nat :=
  countTokF tok s.length s

/-- Fuel-indexed scan removing every non-overlapping occurrence of a
separator followed by the token: the embedding of `re.sub` with an empty
replacement on the boolean directive patterns. -/
def removeAllTokF (tok : List Char) : Nat → List Char → List Char
  | _, [] => []
  | 0, l => l
  | fuel + 1, c :: rest =>
    if isSep c && ciStarts tok rest then removeAllTokF tok fuel (rest.drop tok.length)
    else c :: removeAllTokF tok fuel rest

/-- Remove every non-overlapping occurrence of a separator followed by the
token, scanning left to right. -/
def removeAllTok (tok : List Char) (s : List Char) : List Char :=
  removeAllTokF tok s.length s

/-- The literal characters of the directory directive word. -/
def dirTok : List Char := ['d', 'i', 'r', ':']

/-- Embedding of `re.search` for the directory directive: a separator, the
word of `dirTok` case-insensitively, then a non-empty run of non-whitespace
characters, whose value is captured.  Returns the first captured value. -/
def findDir : List Char → Option (List Char)
  | [] => none
  | c :: rest =>
    let v := (rest.drop 4).takeWhile (fun d => !(isPySpace d))
    if isSep c && ciStarts dirTok rest && !v.isEmpty then some v
    else findDir rest

/-- Fuel-indexed removal of every directory directive occurrence, the
embedding of `re.sub` with an empty replacement on that pattern. -/
def removeAllDirF : Nat → List Char → List Char
  | _, [] => []
  | 0, l => l
  | fuel + 1, c :: rest =>
    let v := (rest.drop 4).takeWhile (fun d => !(isPySpace d))
    if isSep c && ciStarts dirTok rest && !v.isEmpty then
      removeAllDirF fuel ((rest.drop 4).drop v.length)
    else c :: removeAllDirF fuel rest

/-- Remove every directory directive occurrence. -/
def removeAllDir (s : List Char) : List Char :=
  removeAllDirF s.length s

/-- Fuel-indexed collection of every captured directory directive value, the
embedding of `re.finditer` on that pattern in `check_duplicate_modifiers`. -/
def findAllDirF : Nat → List Char → List (List Char)
  | _, [] => []
  | 0, _ => []
  | fuel + 1, c :: rest =>
    let v := (rest.drop 4).takeWhile (fun d => !(isPySpace d))
    if isSep c && ciStarts dirTok rest && !v.isEmpty then
      v :: findAllDirF fuel ((rest.drop 4).drop v.length)
    else findAllDirF fuel rest

/-- Collect every captured directory directive value, scanning left to
right with non-overlapping matches. -/
def findAllDir (s : List Char) : List (List Char) :=
  findAllDirF s.length s

/-- The literal characters of the separate directive word. -/
def sepTok : List Char := ['s', 'e', 'p']

/-- The literal characters of the deny-export directive word. -/
def dkTok : List Char := ['d', 'k']

/-- The literal characters of the skip-parent directive word. -/
def skTok : List Char := ['s', 'k']

/-- The literal characters of the animation directive word. -/
def animTok : List Char := ['a', 'n', 'i', 'm']

/-- The directive set parsed from a raw name: the `modifiers` dictionary of
`parse_modifiers`, with `dir` the directory override and the four boolean
directives. -/
structure Modifiers where
  dir : Option String
  sep : Bool
  dk : Bool
  sk : Bool
  anim : Bool
deriving Repr, DecidableEq

/-- Embedding of `parse_modifiers` (export.py lines 1354-1393): strip the
name, capture the first directory directive value and remove all directory
directive occurrences, count each boolean directive on the result, remove
all their occurrences in the source's order, collapse whitespace runs and
strip, returning the clean name and the directive set. -/
def parse_modifiers (name : String) : String × Modifiers :=
  let clean0 := pyStrip name.toList
  let dirVal := findDir clean0
  let clean1 :=
    match dirVal with
    | some _ => pyStrip (removeAllDir clean0)
    | none => clean0
  let skCount := countTok skTok clean1
  let dkCount := countTok dkTok clean1
  let sepCount := countTok sepTok clean1
  let animCount := countTok animTok clean1
  let clean2 := pyStrip (removeAllTok sepTok clean1)
  let clean3 := pyStrip (removeAllTok dkTok clean2)
  let clean4 := pyStrip (removeAllTok skTok clean3)
  let clean5 := pyStrip (removeAllTok animTok clean4)
  let cleanF := pyStrip (collapseWs clean5)
  (String.mk cleanF,
    { dir := dirVal.map (fun v => String.mk (pyStrip v))
      sep := decide (0 < sepCount)
      dk := decide (0 < dkCount)
      sk := decide (0 < skCount)
      anim := decide (0 < animCount) })

/-- A scene object as read by the exporter: its raw name, its Blender type
string, the two visibility flags, and the parent reference, modelled as an
index into the scene's object list (`none` when the object has no parent).
The scene itself is the list playing the role of `bpy.data.objects`. -/
structure Obj where
  name : String
  otype : String
  hide : Bool
  hide_render : Bool
  parentIdx : Option Nat
deriving Repr, DecidableEq

/-- The object stored at an index of the scene list; out-of-range indices
yield an inert placeholder and never arise on the inputs considered. -/
def objAt (sc : List Obj) (i : Nat) : Obj :=
  (sc[i]?).getD ⟨"", "", false, false, none⟩

/-- The parent index of the object at an index, when any. -/
def parentOf (sc : List Obj) (i : Nat) : Option Nat :=
  (sc[i]?).bind (fun o => o.parentIdx)

/-- Embedding of `is_object_visible` (lines 981-993): visibility of an
object under an export mode string. -/
def is_object_visible (o : Obj) (mode : String) : Bool :=
  if mode = "ALL" then true
  else if mode = "VISIBLE" then !(o.hide || o.hide_render)
  else if mode = "RENDERABLE" then !o.hide_render
  else true

/-- The object types accepted by `should_export_object` (line 1006). -/
def meshTypes : List String :=
  ["MESH", "CURVE", "SURFACE", "META", "FONT", "ARMATURE"]

/-- Embedding of `should_export_object` (lines 995-1010): deny-export
directive excludes the object, then the type check, then visibility under
the export mode.  The Python signature defaults the mode to VISIBLE;
callers of the embedding pass the mode explicitly. -/
def should_export_object (o : Obj) (export_mode : String) : Bool :=
  let pm := parse_modifiers o.name
  if pm.2.dk then false
  else if !(meshTypes.contains o.otype) then false
  else is_object_visible o export_mode

/-- Embedding of `get_object_children` (lines 1014-1021): every child of
the object, recursively, in scene order, child before its own descendants.
The fuel bounds the recursion depth; the wrapper passes the scene size,
which bounds the depth of any acyclic parent relation. -/
def get_object_children (sc : List Obj) : Nat → Nat → List Nat
  | 0, _ => []
  | fuel + 1, i =>
    ((List.range sc.length).filter (fun j => parentOf sc j == some i)).flatMap
      (fun j => j :: get_object_children sc fuel j)

/-- Embedding of `get_object_hierarchy` (lines 1023-1027): the object
followed by all its recursive children. -/
def get_object_hierarchy (sc : List Obj) (i : Nat) : List Nat :=
  i :: get_object_children sc sc.length i

/-- Embedding of `is_root_object` (lines 1029-1043): an object is a root
when it has no parent, or its parent carries the deny-export directive, or
its parent fails `should_export_object` — which the source calls without a
mode argument, so the parent is always tested under the Python default
mode VISIBLE. -/
def is_root_object (sc : List Obj) (i : Nat) : Bool :=
  match parentOf sc i with
  | none => true
  | some p =>
    if (parse_modifiers (objAt sc p).name).2.dk then true
    else if !(should_export_object (objAt sc p) "VISIBLE") then true
    else false

/-- Embedding of `find_parent_export_roots` (lines 1045-1071): walk the
scene in order; keep each exportable root object without deny-export or
skip-parent directives, mapped to the exportable part of its hierarchy,
dropping roots whose exportable hierarchy is empty.  The Python dict in
insertion order is modelled as an association list. -/
def find_parent_export_roots (sc : List Obj) (export_mode : String) :
    List (Nat × List Nat) :=
  (List.range sc.length).foldl
    (fun acc i =>
      if !(should_export_object (objAt sc i) export_mode) then acc
      else if is_root_object sc i then
        let m := (parse_modifiers (objAt sc i).name).2
        if m.dk || m.sk then acc
        else
          let hier := get_object_hierarchy sc i
          let exportable := hier.filter (fun j => should_export_object (objAt sc j) export_mode)
          if exportable.isEmpty then acc else acc ++ [(i, exportable)]
      else acc)
    []

/-- The root-finding loop of `get_selected_parent_roots` (lines 1079-1081):
climb parent links while the parent exists and is in the supplied set.
Fuel bounds the climb; the wrapper passes the scene size. -/
def findLocalRoot (sc : List Obj) (selected : List Nat) : Nat → Nat → Nat
  | 0, i => i
  | fuel + 1, i =>
    match parentOf sc i with
    | none => i
    | some p => if selected.contains p then findLocalRoot sc selected fuel p else i

/-- Embedding of `get_selected_parent_roots` (lines 1073-1086): for each
supplied object find its local root, and map each first-seen root to its
entire hierarchy (`get_object_hierarchy`, over the whole scene). -/
def get_selected_parent_roots (sc : List Obj) (selected : List Nat) :
    List (Nat × List Nat) :=
  selected.foldl
    (fun acc i =>
      let r := findLocalRoot sc selected sc.length i
      if acc.any (fun kv => kv.1 == r) then acc
      else acc ++ [(r, get_object_hierarchy sc r)])
    []

/-- Embedding of `get_extension` (lines 1277-1287): the fixed format-to-
suffix lookup, defaulting to the OBJ suffix for unknown formats. -/
def get_extension (format_type : String) : String :=
  if format_type = "OBJ" then ".obj"
  else if format_type = "FBX" then ".fbx"
  else if format_type = "STL" then ".stl"
  else if format_type = "PLY" then ".ply"
  else if format_type = "DAE" then ".dae"
  else if format_type = "X3D" then ".x3d"
  else ".obj"

/-- The POSIX behaviour of `os.path.join` on a relative second component:
concatenation with a single separator. -/
def joinPath (a b : String) : String :=
  a ++ "/" ++ b

/-- Embedding of `get_final_export_path` (lines 1487-1495): join the base
path, the directory override when one is present, and the clean name with
the format's suffix.  The captured override value is never empty, so the
Python truthiness test coincides with the option match. -/
def get_final_export_path (base_path : String) (dir_modifier : Option String)
    (clean_name : String) (format_type : String) : String :=
  let ext := get_extension format_type
  match dir_modifier with
  | some d => joinPath (joinPath base_path d) (clean_name ++ ext)
  | none => joinPath base_path (clean_name ++ ext)

/-- Embedding of `resolve_export_directory` (lines 1505-1542): the export
directory for one unit.  Scene scope uses the scene filename's override;
parent scope uses the parent's override; layer scope never uses one; object
scope first returns the parent's override when the parent has one, and only
otherwise falls back to the object's own override. -/
def resolve_export_directory (o : Obj) (parent_obj : Option Obj)
    (export_scope : String) (base_export_path : String)
    (scene_export_filename : String) : String :=
  let objMods := (parse_modifiers o.name).2
  if export_scope = "SCENE" then
    match (parse_modifiers scene_export_filename).2.dir with
    | some d => joinPath base_export_path d
    | none => base_export_path
  else if export_scope = "PARENT" then
    match parent_obj with
    | some p =>
      match (parse_modifiers p.name).2.dir with
      | some d => joinPath base_export_path d
      | none => base_export_path
    | none => base_export_path
  else if export_scope = "LAYER" then base_export_path
  else if export_scope = "OBJECT" then
    match parent_obj with
    | some p =>
      match (parse_modifiers p.name).2.dir with
      | some d => joinPath base_export_path d
      | none =>
        match objMods.dir with
        | some d => joinPath base_export_path d
        | none => base_export_path
    | none =>
      match objMods.dir with
      | some d => joinPath base_export_path d
      | none => base_export_path
  else base_export_path

/-- Embedding of `is_valid_directory_name` (lines 1743-1771): non-empty,
no filesystem-unsafe characters, not a Windows reserved device name, no
leading or trailing whitespace, and no leading or trailing dot. -/
def is_valid_directory_name (dir_name : String) : Bool :=
  if dir_name.isEmpty then false
  else if (['/', '\\', ':', '*', '?', '"', '<', '>', '|'].any
      (fun c => dir_name.toList.contains c)) then false
  else if (["CON", "PRN", "AUX", "NUL", "COM1", "COM2", "COM3", "COM4",
      "COM5", "COM6", "COM7", "COM8", "COM9", "LPT1", "LPT2",
      "LPT3", "LPT4", "LPT5", "LPT6", "LPT7", "LPT8", "LPT9"].contains
        (String.mk (dir_name.toList.map (fun c =>
          if 'a' ≤ c ∧ c ≤ 'z' then Char.ofNat (c.toNat - 32) else c)))) then false
  else if String.mk (pyStrip dir_name.toList) ≠ dir_name then false
  else if dir_name.toList.headD ' ' = '.' then false
  else if dir_name.toList.getLastD ' ' = '.' then false
  else true

/-- A validation issue as produced by the validators: a severity string
(`ERROR` or `WARNING`) and a message. -/
structure Issue where
  severity : String
  message : String
deriving Repr, DecidableEq

/-- Embedding of the per-directive duplicate loop body of
`check_duplicate_modifiers` for one boolean directive: a warning when the
directive occurs more than once in the raw name. -/
def duplicateBoolIssue (original_name clean_name item_type modName : String)
    (tok : List Char) : List Issue :=
  let count := countTok tok original_name.toList
  if count > 1 then
    [⟨"WARNING", item_type ++ " '" ++ clean_name ++ "': " ++ toString count ++
        " duplicate " ++ modName ++ " modifiers found (redundant)"⟩]
  else []

/-- Embedding of `check_duplicate_modifiers` (lines 1679-1741): duplicate
directory directives are an error, a single invalid directory value is an
error, duplicated boolean directives are warnings, and the simultaneous
presence of the deny-export and skip-parent directives is an error.  The
Python dict of patterns is iterated in its listing order. -/
def check_duplicate_modifiers (original_name clean_name item_type : String) :
    List Issue :=
  let dirVals := (findAllDir original_name.toList).map String.mk
  let dirIssues :=
    if dirVals.length > 1 then
      [⟨"ERROR", item_type ++ " '" ++ clean_name ++ "': " ++ toString dirVals.length ++
          " duplicate -dir modifiers found: " ++ String.intercalate ", " dirVals⟩]
    else if dirVals.length = 1 && !(is_valid_directory_name (dirVals.headD "")) then
      [⟨"ERROR", item_type ++ " '" ++ clean_name ++ "': -dir value '" ++
          dirVals.headD "" ++ "' contains invalid directory characters"⟩]
    else []
  let loopIssues :=
    dirIssues ++
    duplicateBoolIssue original_name clean_name item_type "-sep" sepTok ++
    duplicateBoolIssue original_name clean_name item_type "-dk" dkTok ++
    duplicateBoolIssue original_name clean_name item_type "-sk" skTok ++
    duplicateBoolIssue original_name clean_name item_type "-anim" animTok
  let conflict :=
    if 0 < countTok dkTok original_name.toList ∧ 0 < countTok skTok original_name.toList then
      [⟨"ERROR", item_type ++ " '" ++ clean_name ++
          "': -dk and -sk cannot be used together (conflicting exclusion)"⟩]
    else []
  loopIssues ++ conflict

/-- The per-object issue list of `validate_export_modifiers` (lines
1644-1669): the duplicate checks, then in basic mode an error when the
skip-parent and deny-export directives are both set, and in strict mode a
warning when a skip-parent object has children. -/
def objectIssues (sc : List Obj) (sk_behavior : String) (i : Nat) : List Issue :=
  let o := objAt sc i
  let pm := parse_modifiers o.name
  let dup := check_duplicate_modifiers o.name pm.1 "Object"
  let extra :=
    if sk_behavior = "BASIC" then
      if pm.2.sk && pm.2.dk then
        [⟨"ERROR", "Object '" ++ pm.1 ++ "': -sk and -dk are incompatible (conflicting exclusion)"⟩]
      else []
    else if sk_behavior = "STRICT" && pm.2.sk then
      let children := get_object_children sc sc.length i
      if !children.isEmpty then
        [⟨"WARNING", "Object '" ++ pm.1 ++ "': -sk used on parent object with " ++
            toString children.length ++ " children (strict mode)"⟩]
      else []
    else []
  dup ++ extra

/-- Embedding of `validate_export_modifiers` (lines 1637-1677): the issues
of every scene object in order, then the duplicate checks on the scene
export filename. -/
def validate_export_modifiers (sc : List Obj) (scene_export_filename : String)
    (sk_behavior : String) : List Issue :=
  (List.range sc.length).flatMap (objectIssues sc sk_behavior) ++
    check_duplicate_modifiers scene_export_filename
      (parse_modifiers scene_export_filename).1 "Scene filename"

/-- The `last_export` record stored by the tracking ledger for one settings
key (lines 1127-1135).  The export path is optional because
`find_orphaned_files` reads it with a fallback. -/
structure LastExport where
  timestamp : String
  files : List String
  blend_file : String
  format : String
  scope : String
  mode : String
  export_path : Option String
deriving Repr, DecidableEq

/-- One history entry of the tracking ledger (lines 1140-1146). -/
structure HistoryEntry where
  timestamp : String
  files : List String
  format : String
  scope : String
  mode : String
deriving Repr, DecidableEq

/-- The value stored for one settings key of the ledger. -/
structure PathData where
  last_export : Option LastExport
  history : List HistoryEntry
deriving Repr, DecidableEq

/-- The tracking ledger: the JSON object mapping settings keys to their
data, modelled as an association list in key insertion order. -/
abbrev TrackData : Type := List (String × PathData)

/-- Lookup of a settings key in the ledger. -/
def lookupTD (td : TrackData) (k : String) : Option PathData :=
  (td.find? (fun kv => kv.1 == k)).map (fun kv => kv.2)

/-- Store a value under a settings key, overwriting an existing binding and
appending a new one otherwise, as a Python dict assignment does. -/
def setTD (td : TrackData) (k : String) (v : PathData) : TrackData :=
  if td.any (fun kv => kv.1 == k) then
    td.map (fun kv => if kv.1 == k then (k, v) else kv)
  else td ++ [(k, v)]

/-- The last `n` elements of a list, as Python slicing with a negative
start index keeps them. -/
def takeLast (n : Nat) (l : List α) : List α :=
  l.drop (l.length - n)

/-- Embedding of the ledger transformation of `update_track_file` (lines
1111-1151): under the settings key built from the export path, scope and
mode, store the new `last_export` record, append a history entry and keep
only the last ten.  The load and save of the ledger file around this
transformation are factored out; the metadata the source reads from the
host (timestamp, blend file, format, scope, mode) is passed in. -/
def update_track_file (td : TrackData) (exported_files : List String)
    (export_path scope mode format timestamp blend_file : String) : TrackData :=
  let settings_key := export_path ++ "|" ++ scope ++ "|" ++ mode
  let pd := (lookupTD td settings_key).getD ⟨none, []⟩
  let le : LastExport :=
    ⟨timestamp, exported_files, blend_file, format, scope, mode, some export_path⟩
  let hist := pd.history ++ [⟨timestamp, exported_files, format, scope, mode⟩]
  setTD td settings_key ⟨some le, takeLast 10 hist⟩

/-- The tracked-file union of `find_orphaned_files` (lines 1159-1164):
every file of every settings key's `last_export` record. -/
def trackedFiles (td : TrackData) : List String :=
  td.flatMap (fun kv =>
    match kv.2.last_export with
    | some le => le.files
    | none => [])

/-- The export paths referenced by `last_export` records (lines 1165-1167),
falling back to the head of the settings key when the record lacks the
path; collected as a set, modelled by deduplication. -/
def trackedExportPaths (td : TrackData) : List String :=
  (td.filterMap (fun kv =>
    kv.2.last_export.map (fun le =>
      le.export_path.getD ((kv.1.splitOn "|").headD "")))).dedup

/-- Python `str.endswith`. -/
def strEnds (s suffixStr : String) : Bool :=
  suffixStr.toList.isSuffixOf s.toList

/-- The extension of a path as `os.path.splitext` computes it: taken from
the last dot of the final component, ignoring the component's leading
dots; empty when there is none. -/
def splitext_ext (f : String) : String :=
  let b := (f.toList.reverse.takeWhile (fun c => c ≠ '/')).reverse
  let lead := (b.takeWhile (fun c => c = '.')).length
  let rest := b.drop lead
  let extRev := rest.reverse.takeWhile (fun c => c ≠ '.')
  if extRev.length < rest.length then String.mk ('.' :: extRev.reverse) else ""

/-- The file suffixes the orphan scan considers (line 1176). -/
def supported_extensions : List String :=
  [".obj", ".fbx", ".stl", ".ply", ".dae", ".x3d"]

/-- The directory walk of `find_orphaned_files` (lines 1174-1187): the
filesystem walk is an oracle returning (directory, filename) pairs; pairs
under a directory named like a track file are skipped, and files with a
supported extension are kept as full paths. -/
def walkSupportedFiles (walk : String → List (String × String)) (p : String) :
    List String :=
  (walk p).filterMap (fun rf =>
    if strEnds rf.1 ".export.track" then none
    else if supported_extensions.contains (lowerStr (splitext_ext rf.2)) then
      some (joinPath rf.1 rf.2)
    else none)

/-- Embedding of `find_orphaned_files` (lines 1153-1194): for every tracked
export path that exists, every walked file with a supported extension that
is not in the tracked-file union is an orphan.  The filesystem is supplied
as the existence and walk oracles; the Python sets are modelled as lists
queried only through membership. -/
def find_orphaned_files (td : TrackData) (path_exists : String → Bool)
    (walk : String → List (String × String)) : List String :=
  (trackedExportPaths td).flatMap (fun p =>
    if path_exists p then
      (walkSupportedFiles walk p).filter (fun f => !((trackedFiles td).contains f))
    else [])

/-- Embedding of `load_track_data` (lines 1464-1473): when the ledger file
is present, a successful read-and-parse yields its data and a failing one
is swallowed into an empty ledger; a missing file yields an empty ledger.
The possibly failing file read and JSON parse are supplied as one `Except`
value, and the result is an `Except` so that a raised exception would be
visible to the caller. -/
def load_track_data (file_present : Bool)
    (read_and_parse : Except String TrackData) : Except String TrackData :=
  if file_present then
    match read_and_parse with
    | Except.ok d => Except.ok d
    | Except.error _ => Except.ok ([] : List (String × PathData))
  else Except.ok ([] : List (String × PathData))

/-- Embedding of `save_track_data` (lines 1475-1485): the directory
creation and file write are supplied as one possibly failing `Except`
effect; success returns true and any failure is caught and returns false,
never re-raised. -/
def save_track_data (write_effect : Except String Unit) : Except String Bool :=
  match write_effect with
  | Except.ok _ => Except.ok true
  | Except.error _ => Except.ok false

/-- The world transforms of the scene during an export run, modelled as an
association list from object index to the translation of the object's world
matrix, one rational coordinate standing for the vector: the run only adds
offsets to translations and restores saved values, so one exactly
represented coordinate captures the behaviour. -/
abbrev TState : Type := List (Nat × ℚ)

/-- The stored transform of an object: the first binding of the index, as
a Python dict lookup on the unique-keyed states arising here (objects
absent from the state never arise on the inputs considered). -/
def getT : TState → Nat → ℚ
  | [], _ => 0
  | kv :: rest, i => if kv.1 = i then kv.2 else getT rest i

/-- Write the transform of an object already present in the state, as the
assignment to `matrix_world` does. -/
def setT (s : TState) (i : Nat) (v : ℚ) : TState :=
  s.map (fun kv => if kv.1 == i then (i, v) else kv)

/-- Python dict assignment on the original-positions dictionary: overwrite
an existing binding, append a new one otherwise. -/
def dictSet (d : TState) (i : Nat) (v : ℚ) : TState :=
  if d.any (fun kv => kv.1 == i) then
    d.map (fun kv => if kv.1 == i then (i, v) else kv)
  else d ++ [(i, v)]

/-- Python `dict.update`: fold the assignments of the second dictionary
into the first. -/
def dictUpdate (d add : TState) : TState :=
  add.foldl (fun acc kv => dictSet acc kv.1 kv.2) d

/-- Embedding of `get_parent_center` (lines 1395-1411): the mean of the
translations of the unit's objects, zero for an empty unit. -/
def get_parent_center (s : TState) (objs : List Nat) : ℚ :=
  if objs.isEmpty then 0
  else (objs.map (getT s)).sum / (objs.length : ℚ)

/-- Embedding of `move_parent_to_origin` (lines 1413-1431): record the
current transform of every object of the unit, then shift every object by
the offset from the unit's centre to the cursor; returns the recorded
original positions and the new state. -/
def move_parent_to_origin (s : TState) (objs : List Nat) (cursor : ℚ) :
    TState × TState :=
  if objs.isEmpty then ([], s)
  else
    let originals := objs.foldl (fun d i => dictSet d i (getT s i)) []
    let offset := cursor - get_parent_center s objs
    let s2 := objs.foldl (fun st i => setT st i (getT st i + offset)) s
    (originals, s2)

/-- The restore loop of the `finally` blocks (lines 2445-2449): write every
recorded original position back. -/
def restore_positions (originals : TState) (s : TState) : TState :=
  originals.foldl (fun st kv => setT st kv.1 kv.2) s

/-- The transform-state slice of `export_main` (lines 2064-2087 and
2440-2449) for parent scope with local origins enabled: the parent units
are those of `find_parent_export_roots`, called at line 2070 without a mode
argument and hence under the Python default mode VISIBLE; each unit is
moved to the cursor while accumulating the original-positions dictionary
with `dict.update`, the export body writes no transforms, and the `finally`
block restores every recorded position on every exit path. -/
def export_main_parent_local (sc : List Obj) (s0 : TState) (cursor : ℚ) : TState :=
  let roots := find_parent_export_roots sc "VISIBLE"
  let run :=
    roots.foldl
      (fun (acc : TState × TState) kv =>
        let mv := move_parent_to_origin acc.2 kv.2 cursor
        (dictUpdate acc.1 mv.1, mv.2))
      ([], s0)
  restore_positions run.1 run.2

/-- A message mentions a token when the token occurs contiguously in it. -/
def mentionsTok (msg tok : String) : Prop :=
  ∃ a b, msg.toList = a ++ tok.toList ++ b

/-- The three-object chain used by several counterexamples: object 0 is a
visible mesh, object 1 is a mesh hidden in the viewport with parent 0, and
object 2 is a visible mesh with parent 1. -/
def chainScene : List Obj :=
  [⟨"A", "MESH", false, false, none⟩,
   ⟨"B", "MESH", true, false, some 0⟩,
   ⟨"C", "MESH", false, false, some 1⟩]

/-- A name consisting of a given number of repetitions of the skip-parent
directive block: a space, a hyphen and the token characters. -/
def skBlocks : Nat → List Char
  | 0 => []
  | n + 1 => ' ' :: '-' :: 's' :: 'k' :: skBlocks n

/-! ## Theorems -/

/-- C1 counterexample: for an object-unit whose entity name carries its own
directory override while its parent also carries one, the source's object
scope resolution returns the parent's override directory, not the entity's
own, so the claimed precedence of the unit's own override fails. -/
theorem c1_object_own_override_loses_cx :
    resolve_export_directory ⟨"Child -dir:Own", "MESH", false, false, none⟩
        (some ⟨"Papa -dir:Par", "MESH", false, false, none⟩) "OBJECT" "base" "Scene" =
      "base/Par" ∧
    resolve_export_directory ⟨"Child -dir:Own", "MESH", false, false, none⟩
        (some ⟨"Papa -dir:Par", "MESH", false, false, none⟩) "OBJECT" "base" "Scene" ≠
      "base/Own" := by
  decide

/-- C1 amended: in object scope the parent's directory override takes
precedence; the entity's own override is used only when the parent is
absent or carries no override, and the base path is used when neither
carries one. -/
theorem c1_object_scope_override_precedence (o p : Obj) (base sceneFn : String) :
    (∀ d, (parse_modifiers p.name).2.dir = some d →
      resolve_export_directory o (some p) "OBJECT" base sceneFn = joinPath base d) ∧
    ((parse_modifiers p.name).2.dir = none →
      ∀ d, (parse_modifiers o.name).2.dir = some d →
        resolve_export_directory o (some p) "OBJECT" base sceneFn = joinPath base d) ∧
    ((parse_modifiers p.name).2.dir = none →
      (parse_modifiers o.name).2.dir = none →
      resolve_export_directory o (some p) "OBJECT" base sceneFn = base) ∧
    (∀ d, (parse_modifiers o.name).2.dir = some d →
      resolve_export_directory o none "OBJECT" base sceneFn = joinPath base d) ∧
    ((parse_modifiers o.name).2.dir = none →
      resolve_export_directory o none "OBJECT" base sceneFn = base) := by
  refine ⟨?_, ?_, ?_, ?_, ?_⟩
  · intro d h
    simp [resolve_export_directory, h]
  · intro hp d h
    simp [resolve_export_directory, hp, h]
  · intro hp h
    simp [resolve_export_directory, hp, h]
  · intro d h
    simp [resolve_export_directory, h]
  · intro h
    simp [resolve_export_directory, h]

/-- C1 witness: the amended precedence evaluated at a concrete object and
parent that both carry overrides. -/
theorem c1_object_scope_override_precedence_witness :
    resolve_export_directory ⟨"Child -dir:Own", "MESH", false, false, none⟩
        (some ⟨"Papa -dir:Par", "MESH", false, false, none⟩) "OBJECT" "base" "Scene" =
      joinPath "base" "Par" :=
  (c1_object_scope_override_precedence ⟨"Child -dir:Own", "MESH", false, false, none⟩
    ⟨"Papa -dir:Par", "MESH", false, false, none⟩ "base" "Scene").1 "Par" (by decide)

/-- C2 counterexample: in the chain scene, object 2's parent (object 1) is
exportable under the supplied mode ALL and carries no deny-export
directive, yet parent-scope root detection under mode ALL still selects
object 2 as a root, because the source tests the parent under the fixed
default mode instead of the supplied one. -/
theorem c2_root_mode_cx :
    (find_parent_export_roots chainScene "ALL").any (fun kv => kv.1 == 2) = true ∧
    parentOf chainScene 2 = some 1 ∧
    should_export_object (objAt chainScene 1) "ALL" = true ∧
    (parse_modifiers (objAt chainScene 1).name).2.dk = false := by
  decide

/-- C2 amended: an entity is a root precisely when it has no parent, or its
parent carries deny-export, or its parent fails the exportability test
under the fixed Python-default mode VISIBLE — independently of the export
mode supplied to the surrounding scope resolution. -/
theorem c2_root_detection_fixed_visible_mode (sc : List Obj) (i : Nat) :
    is_root_object sc i = true ↔
      parentOf sc i = none ∨
        ∃ p, parentOf sc i = some p ∧
          ((parse_modifiers (objAt sc p).name).2.dk = true ∨
            should_export_object (objAt sc p) "VISIBLE" = false) := by
  cases h : parentOf sc i with
  | none => simp [is_root_object, h]
  | some p =>
    simp only [is_root_object, h]
    split_ifs with h1 h2 <;> simp_all

/-- C7: the tracking-ledger load never raises, returns the empty ledger for
a missing file and for a failing read or parse, and the save never raises,
reporting a failing write as a false result. -/
theorem c7_ledger_load_save_total :
    (∀ r : Except String TrackData, ∃ d, load_track_data true r = Except.ok d) ∧
    (∀ r : Except String TrackData, load_track_data false r = Except.ok []) ∧
    (∀ e : String, load_track_data true (Except.error e) = Except.ok []) ∧
    (∀ w : Except String Unit, ∃ b, save_track_data w = Except.ok b) ∧
    (∀ e : String, save_track_data (Except.error e) = Except.ok false) ∧
    save_track_data (Except.ok ()) = Except.ok true := by
  refine ⟨?_, ?_, ?_, ?_, ?_, rfl⟩
  · intro r
    cases r with
    | ok d => exact ⟨d, rfl⟩
    | error e => exact ⟨[], rfl⟩
  · intro r
    rfl
  · intro e
    rfl
  · intro w
    cases w with
    | ok u => exact ⟨true, rfl⟩
    | error e => exact ⟨false, rfl⟩
  · intro e
    rfl

/-- C9: directive recognition requires a separator before the token but no
delimiter after it, so the separate-token occurring at the start of the
longer word is recognized, the flag is set, and only the token characters
are removed, leaving the remainder embedded in the clean name. -/
theorem c9_embedded_token_matched :
    parse_modifiers "Box -separate" =
      ("Box arate", ⟨none, true, false, false, false⟩) := by
  decide

/-- Helper: boolean list containment agrees with membership. -/
theorem contains_eq_true_iff {α : Type} [BEq α] [LawfulBEq α] (l : List α) (x : α) :
    l.contains x = true ↔ x ∈ l := by
  simp [List.contains, List.elem_iff]

/-- Helper: string concatenation concatenates character lists. -/
theorem toList_append (s t : String) : (s ++ t).toList = s.toList ++ t.toList := rfl

/-- Helper: a predicate preserved by every fold step holds of every member
of the fold's result when it holds of every member of the start value. -/
theorem foldl_mem_invariant {α β : Type} (P : β → Prop) (g : List β → α → List β)
    (hg : ∀ acc i kv, (∀ kv2 ∈ acc, P kv2) → kv ∈ g acc i → P kv) :
    ∀ (l : List α) (acc : List β), (∀ kv ∈ acc, P kv) → ∀ kv ∈ l.foldl g acc, P kv := by
  intro l
  induction l with
  | nil => exact fun acc h kv hkv => h kv hkv
  | cons i t ih =>
    intro acc h kv hkv
    exact ih (g acc i) (fun kv2 h2 => hg acc i kv2 h h2) kv hkv

/-- C4 counterexample: with only the parent selected, the selection-scoped
parent variant produces a unit containing the unselected child, so a unit
is not restricted to the caller-supplied set. -/
theorem c4_unit_escapes_selection_cx :
    (get_selected_parent_roots
        [⟨"A", "MESH", false, false, none⟩, ⟨"B", "MESH", false, false, some 0⟩]
        [0]).any (fun kv => kv.2.contains 1) = true ∧
    ([0] : List Nat).contains 1 = false := by
  decide

/-- C4 amended: in the selection-scoped parent variant every output unit is
the local root together with all of its descendants in the whole scene
graph, not restricted to the caller-supplied set. -/
theorem c4_selected_units_are_full_hierarchies (sc : List Obj) (selected : List Nat)
    (r : Nat) (u : List Nat)
    (h : (r, u) ∈ get_selected_parent_roots sc selected) :
    u = get_object_hierarchy sc r := by
  unfold get_selected_parent_roots at h
  have key :
      ∀ kv ∈ get_selected_parent_roots sc selected,
        kv.2 = get_object_hierarchy sc kv.1 := by
    unfold get_selected_parent_roots
    refine foldl_mem_invariant
      (fun kv : Nat × List Nat => kv.2 = get_object_hierarchy sc kv.1) _
      ?_ selected [] (by simp)
    intro acc i kv hacc hkv
    dsimp only at hkv
    split at hkv
    · exact hacc kv hkv
    · rcases List.mem_append.1 hkv with h1 | h1
      · exact hacc kv h1
      · simp only [List.mem_singleton] at h1
        subst h1
        rfl
  exact key (r, u) (by unfold get_selected_parent_roots; exact h)

/-- C4 witness: the amended hierarchy description evaluated at the
two-object scene with only the parent selected. -/
theorem c4_selected_units_are_full_hierarchies_witness :
    [0, 1] = get_object_hierarchy
        [⟨"A", "MESH", false, false, none⟩, ⟨"B", "MESH", false, false, some 0⟩] 0 :=
  c4_selected_units_are_full_hierarchies
    [⟨"A", "MESH", false, false, none⟩, ⟨"B", "MESH", false, false, some 0⟩]
    [0] 0 [0, 1] (by decide)

/-- C3 counterexample: for an entity whose raw name carries both the
deny-export and skip-parent directives, basic-mode validation produces two
issues of severity ERROR, not exactly one. -/
theorem c3_two_errors_cx :
    ((validate_export_modifiers [⟨"Foo -dk -sk", "MESH", false, false, none⟩]
        "Scene" "BASIC").filter (fun i => i.severity == "ERROR")).length = 2 := by
  decide

/-- C8: in a parent-scope export with local origins over the chain scene
(a visible root, a hidden middle object, a visible grandchild), the
grandchild belongs both to the root's unit and to its own unit, is moved
twice, and its recorded original position is overwritten by an already
moved transform, so after the guaranteed restore of the normal exit path
its world transform is the cursor position instead of its pre-run value. -/
theorem c8_restore_leaves_twice_moved_entity_displaced :
    getT [(0, 0), (1, 0), (2, 0)] 2 = 0 ∧
    getT (export_main_parent_local chainScene [(0, 0), (1, 0), (2, 0)] 10) 2 = 10 ∧
    export_main_parent_local chainScene [(0, 0), (1, 0), (2, 0)] 10 ≠
      [(0, 0), (1, 0), (2, 0)] := by
  have hroots : find_parent_export_roots chainScene "VISIBLE" = [(0, [0, 2]), (2, [2])] := by
    decide
  have h : export_main_parent_local chainScene [(0, 0), (1, 0), (2, 0)] 10 =
      [(0, 0), (1, 0), (2, 10)] := by
    unfold export_main_parent_local
    rw [hroots]
    norm_num [move_parent_to_origin, get_parent_center, getT, setT, dictSet, dictUpdate,
      restore_positions, List.foldl, List.map]
  refine ⟨by norm_num [getT], ?_, ?_⟩
  · rw [h]
    norm_num [getT]
  · rw [h]
    norm_num

/-- Helper: storing a key in the ledger makes the binding a member. -/
theorem mem_setTD (td : TrackData) (k : String) (v : PathData) :
    (k, v) ∈ setTD td k v := by
  unfold setTD
  split
  · next h =>
    obtain ⟨kv, hkv, hbeq⟩ := List.any_eq_true.1 h
    refine List.mem_map.2 ⟨kv, hkv, ?_⟩
    simp [hbeq]
  · exact List.mem_append_right _ (List.mem_singleton.2 rfl)

/-- Helper: a file of some key's last-export record is a tracked file. -/
theorem mem_trackedFiles (td : TrackData) (kv : String × PathData) (le : LastExport)
    (hkv : kv ∈ td) (hle : kv.2.last_export = some le) (x : String)
    (hx : x ∈ le.files) : x ∈ trackedFiles td := by
  unfold trackedFiles
  refine List.mem_flatMap.2 ⟨kv, hkv, ?_⟩
  rw [hle]
  exact hx

/-- C6: recording an export run and then scanning for orphans against a
filesystem whose only existing directory is the run's export directory,
containing only the recorded files, reports no orphans. -/
theorem c6_record_then_find_orphans_empty
    (td : TrackData) (files : List String)
    (export_path scope mode fmt ts blend : String)
    (path_exists : String → Bool) (walk : String → List (String × String))
    (hwalk : ∀ rf ∈ walk export_path, joinPath rf.1 rf.2 ∈ files)
    (hex : ∀ p, p ≠ export_path → path_exists p = false) :
    find_orphaned_files (update_track_file td files export_path scope mode fmt ts blend)
      path_exists walk = [] := by
  set td2 := update_track_file td files export_path scope mode fmt ts blend with htd2
  have h2 : td2 = setTD td (export_path ++ "|" ++ scope ++ "|" ++ mode)
      ⟨some ⟨ts, files, blend, fmt, scope, mode, some export_path⟩,
        takeLast 10
          (((lookupTD td (export_path ++ "|" ++ scope ++ "|" ++ mode)).getD
              ⟨none, []⟩).history ++ [⟨ts, files, fmt, scope, mode⟩])⟩ := rfl
  have htracked : ∀ x ∈ files, x ∈ trackedFiles td2 := by
    intro x hx
    have hmem := mem_setTD td (export_path ++ "|" ++ scope ++ "|" ++ mode)
      ⟨some ⟨ts, files, blend, fmt, scope, mode, some export_path⟩,
        takeLast 10
          (((lookupTD td (export_path ++ "|" ++ scope ++ "|" ++ mode)).getD
              ⟨none, []⟩).history ++ [⟨ts, files, fmt, scope, mode⟩])⟩
    rw [← h2] at hmem
    exact mem_trackedFiles td2 _ _ hmem rfl x hx
  unfold find_orphaned_files
  refine List.flatMap_eq_nil_iff.2 ?_
  intro p hp
  by_cases hpe : p = export_path
  · subst hpe
    cases hb : path_exists p with
    | false => simp [hb]
    | true =>
      simp only [hb, if_true]
      refine List.filter_eq_nil_iff.2 ?_
      intro f hf
      unfold walkSupportedFiles at hf
      obtain ⟨rf, hrf, heq⟩ := List.mem_filterMap.1 hf
      have hfx : f ∈ files := by
        by_cases hc1 : strEnds rf.1 ".export.track" = true
        · rw [if_pos hc1] at heq
          exact absurd heq (by simp)
        · rw [if_neg hc1] at heq
          by_cases hc2 : supported_extensions.contains (lowerStr (splitext_ext rf.2)) = true
          · rw [if_pos hc2] at heq
            have hje : joinPath rf.1 rf.2 = f := by
              simpa using heq
            rw [← hje]
            exact hwalk rf hrf
          · rw [if_neg hc2] at heq
            exact absurd heq (by simp)
      have hmem : f ∈ trackedFiles td2 := htracked f hfx
      simp [contains_eq_true_iff, hmem]
  · simp [hex p hpe]

/-- C6 witness: the round trip evaluated at one concrete run over an empty
ledger and a directory holding exactly the recorded file. -/
theorem c6_record_then_find_orphans_empty_witness :
    find_orphaned_files
        (update_track_file [] ["out/a.obj"] "out" "OBJECT" "ALL" "OBJ" "t0" "b0")
        (fun p => p == "out")
        (fun p => if p == "out" then [("out", "a.obj")] else []) = [] := by
  refine c6_record_then_find_orphans_empty [] ["out/a.obj"] "out" "OBJECT" "ALL" "OBJ"
    "t0" "b0" _ _ ?_ ?_
  · intro rf hrf
    have hrf2 : rf ∈ [(("out" : String), ("a.obj" : String))] := by
      simpa using hrf
    rw [List.mem_singleton.1 hrf2]
    decide
  · intro p hp
    simp [hp]

/-- C10: a file inside an existing tracked export directory, carrying a
supported extension, that is absent from every last-export file list is
reported as an orphan, even when history entries record it. -/
theorem c10_history_only_file_is_orphan
    (td : TrackData) (path_exists : String → Bool)
    (walk : String → List (String × String)) (f d : String)
    (h1 : f ∉ trackedFiles td)
    (h2 : d ∈ trackedExportPaths td)
    (_hist : ∃ kv ∈ td, ∃ he ∈ kv.2.history, f ∈ he.files)
    (h4 : path_exists d = true)
    (h5 : ∃ rf ∈ walk d, joinPath rf.1 rf.2 = f ∧
      strEnds rf.1 ".export.track" = false ∧
      supported_extensions.contains (lowerStr (splitext_ext rf.2)) = true) :
    f ∈ find_orphaned_files td path_exists walk := by
  unfold find_orphaned_files
  refine List.mem_flatMap.2 ⟨d, h2, ?_⟩
  simp only [h4, if_true]
  refine List.mem_filter.2 ⟨?_, ?_⟩
  · obtain ⟨rf, hrf, hjoin, hte, hext⟩ := h5
    unfold walkSupportedFiles
    refine List.mem_filterMap.2 ⟨rf, hrf, ?_⟩
    dsimp only
    rw [if_neg (by simp [hte]), if_pos hext, hjoin]
  · simp [contains_eq_true_iff, h1]

/-- C10 witness: a ledger whose single key tracks one file but whose
history records another; the other file, present on disk, is an orphan. -/
theorem c10_history_only_file_is_orphan_witness :
    "out/a.obj" ∈ find_orphaned_files
        [("out|OBJECT|ALL",
          ⟨some ⟨"t1", ["out/b.obj"], "bl", "OBJ", "OBJECT", "ALL", some "out"⟩,
            [⟨"t0", ["out/a.obj"], "OBJ", "OBJECT", "ALL"⟩]⟩)]
        (fun p => p == "out")
        (fun p => if p == "out" then [("out", "a.obj"), ("out", "b.obj")] else []) := by
  refine c10_history_only_file_is_orphan _ _ _ "out/a.obj" "out" ?_ ?_ ?_ ?_ ?_
  · decide
  · decide
  · refine ⟨_, List.mem_singleton.2 rfl, ?_⟩
    exact ⟨_, List.mem_singleton.2 rfl, by decide⟩
  · decide
  · refine ⟨("out", "a.obj"), ?_, by decide, by decide, by decide⟩
    simp

/-- Helper: a duplicated-directive warning block contributes no errors. -/
theorem filter_error_duplicateBoolIssue (orig cn it mn : String) (tok : List Char) :
    (duplicateBoolIssue orig cn it mn tok).filter (fun i => i.severity == "ERROR") = [] := by
  simp only [duplicateBoolIssue]
  split <;> rfl

/-- Helper: a token mentioned by the right part of a concatenation is
mentioned by the whole message. -/
theorem mentionsTok_of_right (pre mid tok : String) (h : mentionsTok mid tok) :
    mentionsTok (pre ++ mid) tok := by
  obtain ⟨a, b, hab⟩ := h
  refine ⟨pre.toList ++ a, b, ?_⟩
  rw [toList_append, hab]
  simp [List.append_assoc]

/-- Helper: under one deny-export occurrence together with one skip-parent
occurrence and no directory directives, the duplicate checker contributes
exactly one error, the conflict error. -/
theorem filter_error_check_duplicate (orig cn it : String)
    (hdir : findAllDir orig.toList = [])
    (hdk0 : 0 < countTok dkTok orig.toList)
    (hsk0 : 0 < countTok skTok orig.toList) :
    (check_duplicate_modifiers orig cn it).filter (fun i => i.severity == "ERROR") =
      [⟨"ERROR", it ++ " '" ++ cn ++
        "': -dk and -sk cannot be used together (conflicting exclusion)"⟩] := by
  unfold check_duplicate_modifiers
  simp only [hdir, List.map_nil, List.length_nil, List.filter_append,
    filter_error_duplicateBoolIssue, hdk0, hsk0, and_self, if_true]
  norm_num

/-- C3 amended: for every entity whose raw name parses with both the
deny-export and the skip-parent directive and whose raw text carries at
least one occurrence of each with no directory directives, basic-mode
validation over a one-object scene produces exactly two issues of severity
ERROR, and each of the two cites both directives. -/
theorem c3_basic_mode_conflict_two_errors (name sceneFn ot : String) (hv hr : Bool)
    (pr : Option Nat)
    (hdk : (parse_modifiers name).2.dk = true)
    (hsk : (parse_modifiers name).2.sk = true)
    (hdk0 : 0 < countTok dkTok name.toList)
    (hsk0 : 0 < countTok skTok name.toList)
    (hdir : findAllDir name.toList = [])
    (hscene : check_duplicate_modifiers sceneFn (parse_modifiers sceneFn).1
        "Scene filename" = []) :
    ((validate_export_modifiers [⟨name, ot, hv, hr, pr⟩] sceneFn "BASIC").filter
        (fun i => i.severity == "ERROR")).length = 2 ∧
    ∀ i ∈ (validate_export_modifiers [⟨name, ot, hv, hr, pr⟩] sceneFn "BASIC").filter
        (fun i => i.severity == "ERROR"),
      mentionsTok i.message "-dk" ∧ mentionsTok i.message "-sk" := by
  have hobj : objAt [⟨name, ot, hv, hr, pr⟩] 0 = ⟨name, ot, hv, hr, pr⟩ := rfl
  have hfiltered :
      (validate_export_modifiers [⟨name, ot, hv, hr, pr⟩] sceneFn "BASIC").filter
          (fun i => i.severity == "ERROR") =
        [⟨"ERROR", "Object" ++ " '" ++ (parse_modifiers name).1 ++
            "': -dk and -sk cannot be used together (conflicting exclusion)"⟩,
         ⟨"ERROR", "Object '" ++ (parse_modifiers name).1 ++
            "': -sk and -dk are incompatible (conflicting exclusion)"⟩] := by
    unfold validate_export_modifiers objectIssues
    rw [show List.range ([⟨name, ot, hv, hr, pr⟩] : List Obj).length = [0] from rfl, hscene]
    simp only [List.flatMap_cons, List.flatMap_nil, List.append_nil]
    simp [hobj, hsk, hdk, List.filter_append,
      filter_error_check_duplicate name (parse_modifiers name).1 "Object" hdir hdk0 hsk0,
      filter_error_duplicateBoolIssue]
  rw [hfiltered]
  refine ⟨rfl, ?_⟩
  intro i hi
  rcases List.mem_cons.1 hi with h | h
  · subst h
    constructor
    · exact mentionsTok_of_right _ _ _
        ⟨"': ".toList, " and -sk cannot be used together (conflicting exclusion)".toList,
          by decide⟩
    · exact mentionsTok_of_right _ _ _
        ⟨"': -dk and ".toList, " cannot be used together (conflicting exclusion)".toList,
          by decide⟩
  · rcases List.mem_singleton.1 h with rfl
    constructor
    · exact mentionsTok_of_right _ _ _
        ⟨"': -sk and ".toList, " are incompatible (conflicting exclusion)".toList,
          by decide⟩
    · exact mentionsTok_of_right _ _ _
        ⟨"': ".toList, " and -dk are incompatible (conflicting exclusion)".toList,
          by decide⟩

/-- C3 witness: the amended two-error description evaluated at the
concrete conflicting name. -/
theorem c3_basic_mode_conflict_two_errors_witness :
    ((validate_export_modifiers [⟨"Foo -dk -sk", "MESH", false, false, none⟩]
        "Scene" "BASIC").filter (fun i => i.severity == "ERROR")).length = 2 ∧
    ∀ i ∈ (validate_export_modifiers [⟨"Foo -dk -sk", "MESH", false, false, none⟩]
        "Scene" "BASIC").filter (fun i => i.severity == "ERROR"),
      mentionsTok i.message "-dk" ∧ mentionsTok i.message "-sk" :=
  c3_basic_mode_conflict_two_errors "Foo -dk -sk" "Scene" "MESH" false false none
    (by decide) (by decide) (by decide) (by decide) (by decide) (by decide)

/-- Helper: the length of the repeated skip-parent blocks. -/
theorem skBlocks_length (n : Nat) : (skBlocks n).length = 4 * n := by
  induction n with
  | zero => rfl
  | succ k ih =>
    show (' ' :: '-' :: 's' :: 'k' :: skBlocks k).length = 4 * (k + 1)
    simp [ih]
    omega

/-- Helper: a positive number of skip-parent blocks reversed starts with
the final token character. -/
theorem skBlocks_reverse_head (n : Nat) (h : 0 < n) :
    ∃ t, (skBlocks n).reverse = 'k' :: t := by
  induction n with
  | zero => omega
  | succ k ih =>
    cases k with
    | zero => exact ⟨['s', '-', ' '], rfl⟩
    | succ m =>
      obtain ⟨t, ht⟩ := ih (by omega)
      refine ⟨t ++ ['k', 's', '-', ' '], ?_⟩
      show (' ' :: '-' :: 's' :: 'k' :: skBlocks (m + 1)).reverse = _
      simp [ht]

/-- Helper: stripping leaves the base-plus-blocks name unchanged, since it
neither starts nor ends with whitespace. -/
theorem pyStrip_foo_blocks (n : Nat) :
    pyStrip (['F', 'o', 'o'] ++ skBlocks n) = ['F', 'o', 'o'] ++ skBlocks n := by
  have hF : isPySpace 'F' = false := by decide
  have hk : isPySpace 'k' = false := by decide
  have h1 : List.dropWhile isPySpace (['F', 'o', 'o'] ++ skBlocks n) =
      ['F', 'o', 'o'] ++ skBlocks n := by
    show List.dropWhile isPySpace ('F' :: (['o', 'o'] ++ skBlocks n)) = _
    simp [List.dropWhile_cons, hF]
  have h2 : List.dropWhile isPySpace ((['F', 'o', 'o'] ++ skBlocks n).reverse) =
      (['F', 'o', 'o'] ++ skBlocks n).reverse := by
    cases n with
    | zero => decide
    | succ m =>
      obtain ⟨t, ht⟩ := skBlocks_reverse_head (m + 1) (by omega)
      rw [List.reverse_append, ht]
      show List.dropWhile isPySpace ('k' :: (t ++ ['F', 'o', 'o'].reverse)) = _
      simp [List.dropWhile_cons, hk]
  unfold pyStrip
  rw [h1, h2, List.reverse_reverse]

/-- Helper: stripping the base followed by trailing spaces leaves the base. -/
theorem pyStrip_foo_spaces (n : Nat) :
    pyStrip (['F', 'o', 'o'] ++ List.replicate n ' ') = ['F', 'o', 'o'] := by
  have hF : isPySpace 'F' = false := by decide
  have hsp : isPySpace ' ' = true := by decide
  have hdroprep : ∀ (m : Nat) (l : List Char),
      List.dropWhile isPySpace (List.replicate m ' ' ++ l) =
        List.dropWhile isPySpace l := by
    intro m
    induction m with
    | zero => intro l; rfl
    | succ j ih =>
      intro l
      show List.dropWhile isPySpace (' ' :: (List.replicate j ' ' ++ l)) = _
      rw [show List.dropWhile isPySpace (' ' :: (List.replicate j ' ' ++ l)) =
        List.dropWhile isPySpace (List.replicate j ' ' ++ l) from by
          simp [List.dropWhile_cons, hsp]]
      exact ih l
  have h1 : List.dropWhile isPySpace (['F', 'o', 'o'] ++ List.replicate n ' ') =
      ['F', 'o', 'o'] ++ List.replicate n ' ' := by
    show List.dropWhile isPySpace ('F' :: (['o', 'o'] ++ List.replicate n ' ')) = _
    simp [List.dropWhile_cons, hF]
  unfold pyStrip
  rw [h1, List.reverse_append, List.reverse_replicate]
  rw [hdroprep n (['F', 'o', 'o'].reverse)]
  decide

/-- Helper: a failed directory-directive match advances the scan one
character. -/
theorem findDir_cons_nomatch (c : Char) (l : List Char)
    (h : (isSep c && ciStarts dirTok l &&
      !((l.drop 4).takeWhile (fun d => !(isPySpace d))).isEmpty) = false) :
    findDir (c :: l) = findDir l := by
  simp only [findDir, h]
  rfl

/-- Helper: the directory word does not start at a hyphen character. -/
theorem ciStarts_dirTok_hyphen (l : List Char) : ciStarts dirTok ('-' :: l) = false := by
  have h : (lowerChar 'd' == lowerChar '-') = false := by decide
  simp [ciStarts, dirTok, h]

/-- Helper: the directory word does not start at the token's first
character. -/
theorem ciStarts_dirTok_s (l : List Char) : ciStarts dirTok ('s' :: l) = false := by
  have h : (lowerChar 'd' == lowerChar 's') = false := by decide
  simp [ciStarts, dirTok, h]

/-- Helper: the repeated skip-parent blocks contain no directory
directive. -/
theorem findDir_skBlocks (n : Nat) : findDir (skBlocks n) = none := by
  induction n with
  | zero => rfl
  | succ k ih =>
    show findDir (' ' :: '-' :: 's' :: 'k' :: skBlocks k) = none
    rw [findDir_cons_nomatch ' ' _ (by simp [ciStarts_dirTok_hyphen])]
    rw [findDir_cons_nomatch '-' _ (by simp [ciStarts_dirTok_s])]
    rw [findDir_cons_nomatch 's' _ (by simp [show isSep 's' = false from by decide])]
    rw [findDir_cons_nomatch 'k' _ (by simp [show isSep 'k' = false from by decide])]
    exact ih

/-- Helper: the base name contributes no directory directive either. -/
theorem findDir_foo_blocks (n : Nat) :
    findDir (['F', 'o', 'o'] ++ skBlocks n) = none := by
  show findDir ('F' :: 'o' :: 'o' :: skBlocks n) = none
  rw [findDir_cons_nomatch 'F' _ (by simp [show isSep 'F' = false from by decide])]
  rw [findDir_cons_nomatch 'o' _ (by simp [show isSep 'o' = false from by decide])]
  rw [findDir_cons_nomatch 'o' _ (by simp [show isSep 'o' = false from by decide])]
  exact findDir_skBlocks n

/-- Helper: a run of non-separator characters is scanned through without a
match by the counting scan. -/
theorem countTokF_nonsep_prelude (tok : List Char) (pre : List Char)
    (hpre : ∀ c ∈ pre, isSep c = false) :
    ∀ (fuel : Nat) (l : List Char),
      countTokF tok (pre.length + fuel) (pre ++ l) = countTokF tok fuel l := by
  induction pre with
  | nil => intro fuel l; simp
  | cons c cs ih =>
    intro fuel l
    have hc : isSep c = false := hpre c (List.mem_cons_self c cs)
    have harith : (c :: cs).length + fuel = (cs.length + fuel) + 1 := by
      simp [List.length_cons]
      omega
    rw [harith]
    show countTokF tok ((cs.length + fuel) + 1) (c :: (cs ++ l)) = countTokF tok fuel l
    simp [countTokF, hc]
    exact ih (fun d hd => hpre d (List.mem_cons_of_mem c hd)) fuel l

/-- Helper: a run of non-separator characters is copied unchanged by the
removal scan. -/
theorem removeAllTokF_nonsep_prelude (tok : List Char) (pre : List Char)
    (hpre : ∀ c ∈ pre, isSep c = false) :
    ∀ (fuel : Nat) (l : List Char),
      removeAllTokF tok (pre.length + fuel) (pre ++ l) = pre ++ removeAllTokF tok fuel l := by
  induction pre with
  | nil => intro fuel l; simp
  | cons c cs ih =>
    intro fuel l
    have hc : isSep c = false := hpre c (List.mem_cons_self c cs)
    have harith : (c :: cs).length + fuel = (cs.length + fuel) + 1 := by
      simp [List.length_cons]
      omega
    rw [harith]
    show removeAllTokF tok ((cs.length + fuel) + 1) (c :: (cs ++ l)) =
      c :: (cs ++ removeAllTokF tok fuel l)
    simp [removeAllTokF, hc]
    rw [ih (fun d hd => hpre d (List.mem_cons_of_mem c hd)) fuel l]

/-- Helper: each skip-parent block yields one match of the skip-parent
token, so the count over the blocks is their number. -/
theorem countTokF_sk_blocks :
    ∀ (n fuel : Nat), 4 * n ≤ fuel → countTokF skTok fuel (skBlocks n) = n := by
  intro n
  induction n with
  | zero => intro fuel _; cases fuel <;> rfl
  | succ k ih =>
    intro fuel hfuel
    obtain ⟨f, rfl⟩ : ∃ f, fuel = f + 2 := ⟨fuel - 2, by omega⟩
    have c1 : ciStarts skTok ('-' :: 's' :: 'k' :: skBlocks k) = false := by
      have h : (lowerChar 's' == lowerChar '-') = false := by decide
      simp [ciStarts, skTok, h]
    have c2 : ciStarts skTok ('s' :: 'k' :: skBlocks k) = true := by
      have h1 : (lowerChar 's' == lowerChar 's') = true := by decide
      have h2 : (lowerChar 'k' == lowerChar 'k') = true := by decide
      simp [ciStarts, skTok, h1, h2]
    have s1 : isSep ' ' = true := by decide
    have s2 : isSep '-' = true := by decide
    show countTokF skTok (f + 1 + 1) (' ' :: '-' :: 's' :: 'k' :: skBlocks k) = k + 1
    have hdrop : ('s' :: 'k' :: skBlocks k).drop skTok.length = skBlocks k := rfl
    simp [countTokF, s1, s2, c1, c2, hdrop, ih f (by omega)]

/-- Helper: a token whose word fails to match inside the skip-parent block
is never counted over the blocks; stated for any token that matches
neither after the space nor after the hyphen of a block. -/
theorem countTokF_blocks_nomatch (tok : List Char)
    (c1 : ∀ l : List Char, ciStarts tok ('-' :: 's' :: 'k' :: l) = false)
    (c2 : ∀ l : List Char, ciStarts tok ('s' :: 'k' :: l) = false) :
    ∀ (n fuel : Nat), 4 * n ≤ fuel → countTokF tok fuel (skBlocks n) = 0 := by
  intro n
  induction n with
  | zero => intro fuel _; cases fuel <;> rfl
  | succ k ih =>
    intro fuel hfuel
    obtain ⟨f, rfl⟩ : ∃ f, fuel = f + 4 := ⟨fuel - 4, by omega⟩
    have s1 : isSep ' ' = true := by decide
    have s2 : isSep '-' = true := by decide
    have s3 : isSep 's' = false := by decide
    have s4 : isSep 'k' = false := by decide
    show countTokF tok (f + 1 + 1 + 1 + 1) (' ' :: '-' :: 's' :: 'k' :: skBlocks k) = 0
    simp [countTokF, s1, s2, s3, s4, c1, c2]
    exact ih f (by omega)

/-- Helper: removal of a token that matches nowhere inside the blocks
copies the blocks unchanged. -/
theorem removeAllTokF_blocks_nomatch (tok : List Char)
    (c1 : ∀ l : List Char, ciStarts tok ('-' :: 's' :: 'k' :: l) = false)
    (c2 : ∀ l : List Char, ciStarts tok ('s' :: 'k' :: l) = false) :
    ∀ (n fuel : Nat), 4 * n ≤ fuel → removeAllTokF tok fuel (skBlocks n) = skBlocks n := by
  intro n
  induction n with
  | zero => intro fuel _; cases fuel <;> rfl
  | succ k ih =>
    intro fuel hfuel
    obtain ⟨f, rfl⟩ : ∃ f, fuel = f + 4 := ⟨fuel - 4, by omega⟩
    have s1 : isSep ' ' = true := by decide
    have s2 : isSep '-' = true := by decide
    have s3 : isSep 's' = false := by decide
    have s4 : isSep 'k' = false := by decide
    show removeAllTokF tok (f + 1 + 1 + 1 + 1) (' ' :: '-' :: 's' :: 'k' :: skBlocks k) =
      ' ' :: '-' :: 's' :: 'k' :: skBlocks k
    simp [removeAllTokF, s1, s2, s3, s4, c1, c2]
    exact ih f (by omega)

/-- Helper: removing the skip-parent token from the blocks leaves exactly
the separating spaces. -/
theorem removeAllTokF_sk_blocks :
    ∀ (n fuel : Nat), 4 * n ≤ fuel →
      removeAllTokF skTok fuel (skBlocks n) = List.replicate n ' ' := by
  intro n
  induction n with
  | zero => intro fuel _; cases fuel <;> rfl
  | succ k ih =>
    intro fuel hfuel
    obtain ⟨f, rfl⟩ : ∃ f, fuel = f + 2 := ⟨fuel - 2, by omega⟩
    have c1 : ciStarts skTok ('-' :: 's' :: 'k' :: skBlocks k) = false := by
      have h : (lowerChar 's' == lowerChar '-') = false := by decide
      simp [ciStarts, skTok, h]
    have c2 : ciStarts skTok ('s' :: 'k' :: skBlocks k) = true := by
      have h1 : (lowerChar 's' == lowerChar 's') = true := by decide
      have h2 : (lowerChar 'k' == lowerChar 'k') = true := by decide
      simp [ciStarts, skTok, h1, h2]
    have s1 : isSep ' ' = true := by decide
    have s2 : isSep '-' = true := by decide
    show removeAllTokF skTok (f + 1 + 1) (' ' :: '-' :: 's' :: 'k' :: skBlocks k) =
      List.replicate (k + 1) ' '
    have hdrop : ('s' :: 'k' :: skBlocks k).drop skTok.length = skBlocks k := rfl
    simp [removeAllTokF, s1, s2, c1, c2, hdrop, ih f (by omega), List.replicate_succ]

/-- C5: the worked example parses to the clean name with the directory
override and the skip-parent flag; and for any number of repeated
skip-parent directives appended to a plain base name, every occurrence is
removed, the leftover whitespace is collapsed and trimmed away, and the
flag is set exactly when at least one occurrence was present. -/
theorem c5_parse_example_and_repeats :
    parse_modifiers "Foo -dir:Weapons -sk" =
      ("Foo", ⟨some "Weapons", false, false, true, false⟩) ∧
    ∀ n : Nat, parse_modifiers ("Foo" ++ String.mk (skBlocks n)) =
      ("Foo", ⟨none, false, false, decide (0 < n), false⟩) := by
  refine ⟨by decide, ?_⟩
  intro n
  have hpre : ∀ c ∈ (['F', 'o', 'o'] : List Char), isSep c = false := by decide
  have hname : ("Foo" ++ String.mk (skBlocks n)).toList = ['F', 'o', 'o'] ++ skBlocks n := rfl
  have hlen : (['F', 'o', 'o'] ++ skBlocks n).length =
      (['F', 'o', 'o'] : List Char).length + 4 * n := by
    rw [List.length_append, skBlocks_length]
  have cdk1 : ∀ l : List Char, ciStarts dkTok ('-' :: 's' :: 'k' :: l) = false := by
    intro l
    have h : (lowerChar 'd' == lowerChar '-') = false := by decide
    simp [ciStarts, dkTok, h]
  have cdk2 : ∀ l : List Char, ciStarts dkTok ('s' :: 'k' :: l) = false := by
    intro l
    have h : (lowerChar 'd' == lowerChar 's') = false := by decide
    simp [ciStarts, dkTok, h]
  have csep1 : ∀ l : List Char, ciStarts sepTok ('-' :: 's' :: 'k' :: l) = false := by
    intro l
    have h : (lowerChar 's' == lowerChar '-') = false := by decide
    simp [ciStarts, sepTok, h]
  have csep2 : ∀ l : List Char, ciStarts sepTok ('s' :: 'k' :: l) = false := by
    intro l
    have h1 : (lowerChar 's' == lowerChar 's') = true := by decide
    have h2 : (lowerChar 'e' == lowerChar 'k') = false := by decide
    simp [ciStarts, sepTok, h1, h2]
  have canim1 : ∀ l : List Char, ciStarts animTok ('-' :: 's' :: 'k' :: l) = false := by
    intro l
    have h : (lowerChar 'a' == lowerChar '-') = false := by decide
    simp [ciStarts, animTok, h]
  have canim2 : ∀ l : List Char, ciStarts animTok ('s' :: 'k' :: l) = false := by
    intro l
    have h : (lowerChar 'a' == lowerChar 's') = false := by decide
    simp [ciStarts, animTok, h]
  have hsk : countTok skTok (['F', 'o', 'o'] ++ skBlocks n) = n := by
    unfold countTok
    rw [hlen, countTokF_nonsep_prelude skTok _ hpre, countTokF_sk_blocks n (4 * n) le_rfl]
  have hdk : countTok dkTok (['F', 'o', 'o'] ++ skBlocks n) = 0 := by
    unfold countTok
    rw [hlen, countTokF_nonsep_prelude dkTok _ hpre,
      countTokF_blocks_nomatch dkTok cdk1 cdk2 n (4 * n) le_rfl]
  have hsep : countTok sepTok (['F', 'o', 'o'] ++ skBlocks n) = 0 := by
    unfold countTok
    rw [hlen, countTokF_nonsep_prelude sepTok _ hpre,
      countTokF_blocks_nomatch sepTok csep1 csep2 n (4 * n) le_rfl]
  have hanim : countTok animTok (['F', 'o', 'o'] ++ skBlocks n) = 0 := by
    unfold countTok
    rw [hlen, countTokF_nonsep_prelude animTok _ hpre,
      countTokF_blocks_nomatch animTok canim1 canim2 n (4 * n) le_rfl]
  have hr_sep : pyStrip (removeAllTok sepTok (['F', 'o', 'o'] ++ skBlocks n)) =
      ['F', 'o', 'o'] ++ skBlocks n := by
    unfold removeAllTok
    rw [hlen, removeAllTokF_nonsep_prelude sepTok _ hpre,
      removeAllTokF_blocks_nomatch sepTok csep1 csep2 n (4 * n) le_rfl]
    exact pyStrip_foo_blocks n
  have hr_dk : pyStrip (removeAllTok dkTok (['F', 'o', 'o'] ++ skBlocks n)) =
      ['F', 'o', 'o'] ++ skBlocks n := by
    unfold removeAllTok
    rw [hlen, removeAllTokF_nonsep_prelude dkTok _ hpre,
      removeAllTokF_blocks_nomatch dkTok cdk1 cdk2 n (4 * n) le_rfl]
    exact pyStrip_foo_blocks n
  have hr_sk : pyStrip (removeAllTok skTok (['F', 'o', 'o'] ++ skBlocks n)) =
      ['F', 'o', 'o'] := by
    unfold removeAllTok
    rw [hlen, removeAllTokF_nonsep_prelude skTok _ hpre,
      removeAllTokF_sk_blocks n (4 * n) le_rfl]
    exact pyStrip_foo_spaces n
  have hr_anim : pyStrip (removeAllTok animTok ['F', 'o', 'o']) = ['F', 'o', 'o'] := by
    decide
  have hr_ws : pyStrip (collapseWs ['F', 'o', 'o']) = ['F', 'o', 'o'] := by decide
  simp only [parse_modifiers, hname, pyStrip_foo_blocks n, findDir_foo_blocks n]
  rw [hsk, hdk, hsep, hanim, hr_sep, hr_dk, hr_sk, hr_anim, hr_ws]
  rfl

end ExporterSpec
